import Mathlib

/-!
Shallow embedding of `scripts/extract-subtitles.py` (language-learning-automation).

The script iterates over a list of video descriptors, skips a video whose
output file already exists, otherwise lists the available transcripts,
selects one through a fallback chain (generated ko/en, then manually
created ko/en, then the first transcript in enumeration order), fetches
the selected transcript, writes a JSON record per video, and collects
failure records which are persisted at the end when non-empty.

The external collaborators (transcript API, filesystem, JSON encoder) are
modelled explicitly: the filesystem is an association list from path
strings to file contents, the transcript API is a function from video ids
to a result, and a JSON write is recorded structurally together with the
encoding options passed at the call site (`encoding="utf-8"`,
`ensure_ascii=False`, `indent=2`).  An uncaught Python exception is the
`exn` constructor of `PyResult`; rate-limit pauses are logged as rational
durations.
-/

set_option maxRecDepth 10000

/-- One caption segment as returned by `fetch().to_raw_data()`:
`{text, start, duration}`. Time stamps are modelled as rationals. -/
structure Segment where
  text : String
  start : Rat
  duration : Rat
deriving DecidableEq, Repr

/-- Result of running a piece of Python code: a value, or a raised
exception carrying its textual description (`str(e)`). -/
inductive PyResult (α : Type) where
  | ok (val : α)
  | exn (msg : String)
deriving DecidableEq, Repr

/-- One available transcript as exposed by the transcript list:
its language code, whether it is auto-generated, and the (deterministic)
outcome of calling `fetch()` followed by `to_raw_data()` on it. -/
structure Transcript where
  language_code : String
  is_generated : Bool
  fetched : PyResult (List Segment)
deriving DecidableEq, Repr

/-- The per-video output record written on success (`result` in the
script): `{video_id, title, url, language, transcript}`. -/
structure TranscriptRecord where
  video_id : String
  title : String
  url : String
  language : String
  transcript : List Segment
deriving DecidableEq, Repr

/-- One entry appended to `failed_videos`: `{id, title, error}`. -/
structure FailureRecord where
  id : String
  title : String
  error : String
deriving DecidableEq, Repr

/-- Structured content of a file in the modelled filesystem: a per-video
transcript record, the aggregate failure list, or uninterpreted pre-existing
content. -/
inductive FileContent where
  | record (r : TranscriptRecord)
  | failures (l : List FailureRecord)
  | raw (s : String)
deriving DecidableEq, Repr

/-- A JSON write performed by the script, with the options passed to
`open` and `json.dump` at the call site. -/
structure WriteOp where
  path : String
  content : FileContent
  encoding : String
  ensure_ascii : Bool
  indent : Nat
deriving DecidableEq, Repr

/-- The outcome marker of the progress line printed for one video. -/
inductive Outcome where
  | skip
  | success
  | noSubtitles
  | error
deriving DecidableEq, Repr

/-- An input descriptor, modelled as a Python dict that may be missing
keys: `video[k]` raises `KeyError` when the field is `none`. -/
structure VideoDescriptor where
  id? : Option String
  title? : Option String
  url? : Option String
deriving DecidableEq, Repr

/-- The external world: `list` is `ytt_api.list(video_id)` (its raised
exception or the transcript collection in enumeration order), and
`writeError p` is the exception, if any, raised by opening/writing the
file at path `p`. -/
structure Env where
  list : String → PyResult (List Transcript)
  writeError : String → Option String

/-- Mutable state of one run of the script. -/
structure RunState where
  fs : List (String × FileContent)
  success_count : Nat
  fail_count : Nat
  failed_videos : List FailureRecord
  outcomes : List Outcome
  sleeps : List Rat
  listCalls : List String
  fetchCount : Nat
  writes : List WriteOp
deriving DecidableEq, Repr

def output_dir : String := "reference/subtitles"

def failedSubtitlesPath : String := "reference/failed_subtitles.json"

/-- `os.path.join(output_dir, f"{video_id}.json")` for the relative
directory used by the script. -/
def outputPath (video_id : String) : String :=
  output_dir ++ "/" ++ video_id ++ ".json"

def fsLookup (fs : List (String × FileContent)) (p : String) : Option FileContent :=
  (fs.find? (fun e => e.1 == p)).map (fun e => e.2)

def fsWrite (fs : List (String × FileContent)) (p : String) (c : FileContent) :
    List (String × FileContent) :=
  (p, c) :: fs

/-- `transcript_list.find_generated_transcript(langs)`: the first language
in `langs` for which a generated transcript exists wins. -/
def find_generated_transcript (ts : List Transcript) (langs : List String) :
    Option Transcript :=
  langs.findSome? (fun l => ts.find? (fun t => t.is_generated && t.language_code == l))

/-- `transcript_list.find_manually_created_transcript(langs)`. -/
def find_manually_created_transcript (ts : List Transcript) (langs : List String) :
    Option Transcript :=
  langs.findSome? (fun l => ts.find? (fun t => !t.is_generated && t.language_code == l))

/-- The nested try/except fallback chain of the script: generated ko/en,
else manually created ko/en, else the first transcript of the collection
(`for t in transcript_list: transcript = t; break`), else none. -/
def select_transcript (transcript_list : List Transcript) : Option Transcript :=
  match find_generated_transcript transcript_list [("ko"), ("en")] with
  | some t => some t
  | none =>
    match find_manually_created_transcript transcript_list [("ko"), ("en")] with
    | some t => some t
    | none => transcript_list.head?

/-- The `except Exception as e` handler: append a failure record, count
the failure, print the error line, `time.sleep(1)`. -/
def recordException (video_id title err : String) (s : RunState) : RunState :=
  { s with failed_videos := s.failed_videos ++ [⟨video_id, title, err⟩],
           fail_count := s.fail_count + 1,
           outcomes := s.outcomes ++ [Outcome.error],
           sleeps := s.sleeps ++ [(1 : Rat)] }

/-- Body of the per-video `try` block (everything the broad `except`
protects): list transcripts, select, fetch, build `result` (reading
`video["url"]`), write the output file, or fall to the no-subtitles
branch; then `time.sleep(0.5)`. -/
def tryBlock (env : Env) (v : VideoDescriptor) (video_id title output_path : String)
    (s0 : RunState) : RunState :=
  let s := { s0 with listCalls := s0.listCalls ++ [video_id] }
  match env.list video_id with
  | PyResult.exn e => recordException video_id title e s
  | PyResult.ok transcript_list =>
    match select_transcript transcript_list with
    | none =>
      { s with failed_videos := s.failed_videos ++ [⟨video_id, title, ("No transcript found")⟩],
               fail_count := s.fail_count + 1,
               outcomes := s.outcomes ++ [Outcome.noSubtitles],
               sleeps := s.sleeps ++ [(0.5 : Rat)] }
    | some transcript =>
      let s1 := { s with fetchCount := s.fetchCount + 1 }
      match transcript.fetched with
      | PyResult.exn e => recordException video_id title e s1
      | PyResult.ok transcript_data =>
        match v.url? with
        | none => recordException video_id title ("KeyError: url") s1
        | some url =>
          match env.writeError output_path with
          | some e => recordException video_id title e s1
          | none =>
            let result : TranscriptRecord :=
              ⟨video_id, title, url, transcript.language_code, transcript_data⟩
            { s1 with
              fs := fsWrite s1.fs output_path (FileContent.record result),
              writes := s1.writes ++
                [⟨output_path, FileContent.record result, ("utf-8"), false, 2⟩],
              success_count := s1.success_count + 1,
              outcomes := s1.outcomes ++ [Outcome.success],
              sleeps := s1.sleeps ++ [(0.5 : Rat)] }

/-- One iteration of the main loop.  `video["id"]` and `video["title"]`
are read before the `try` block, so their `KeyError` aborts the whole
run; the cache check skips with no fetch, no write, no pause. -/
def processOne (env : Env) (v : VideoDescriptor) (s : RunState) : PyResult RunState :=
  match v.id? with
  | none => PyResult.exn ("KeyError: id")
  | some video_id =>
    match v.title? with
    | none => PyResult.exn ("KeyError: title")
    | some title =>
      let output_path := outputPath video_id
      if (fsLookup s.fs output_path).isSome then
        PyResult.ok { s with success_count := s.success_count + 1,
                             outcomes := s.outcomes ++ [Outcome.skip] }
      else
        PyResult.ok (tryBlock env v video_id title output_path s)

/-- The `for i, video in enumerate(videos)` loop. -/
def runLoop (env : Env) (vs : List VideoDescriptor) (s : RunState) : PyResult RunState :=
  match vs with
  | [] => PyResult.ok s
  | v :: rest =>
    match processOne env v s with
    | PyResult.exn e => PyResult.exn e
    | PyResult.ok s1 => runLoop env rest s1

/-- The post-loop persistence of `failed_videos` (`if failed_videos:`). -/
def saveFailed (s : RunState) : RunState :=
  if s.failed_videos.isEmpty then s
  else
    { s with
      fs := fsWrite s.fs failedSubtitlesPath (FileContent.failures s.failed_videos),
      writes := s.writes ++
        [⟨failedSubtitlesPath, FileContent.failures s.failed_videos, ("utf-8"), false, 2⟩] }

/-- Initial run state over a pre-existing filesystem. -/
def startState (fs0 : List (String × FileContent)) : RunState :=
  ⟨fs0, 0, 0, [], [], [], [], 0, []⟩

/-- A whole run of the script over a given input list and pre-existing
filesystem. -/
def run (env : Env) (videos : List VideoDescriptor) (fs0 : List (String × FileContent)) :
    PyResult RunState :=
  match runLoop env videos (startState fs0) with
  | PyResult.exn e => PyResult.exn e
  | PyResult.ok s => PyResult.ok (saveFailed s)

/-- The deterministic failure cause for one non-cached video whose
descriptor carries url field `u`: the listing exception, else absence of
any transcript, else the fetch exception, else the `KeyError` on a
missing url, else the write exception; `none` means the video succeeds. -/
def descriptorError (env : Env) (video_id : String) (u : Option String) : Option String :=
  match env.list video_id with
  | PyResult.exn e => some e
  | PyResult.ok ts =>
    match select_transcript ts with
    | none => some ("No transcript found")
    | some t =>
      match t.fetched with
      | PyResult.exn e => some e
      | PyResult.ok _ =>
        match u with
        | none => some ("KeyError: url")
        | some _ => env.writeError (outputPath video_id)

/-- Failure cause for a contract-conforming descriptor (url present):
depends only on the environment and the video id. -/
def videoFails (env : Env) (video_id : String) : Option String :=
  match env.list video_id with
  | PyResult.exn e => some e
  | PyResult.ok ts =>
    match select_transcript ts with
    | none => some ("No transcript found")
    | some t =>
      match t.fetched with
      | PyResult.exn e => some e
      | PyResult.ok _ => env.writeError (outputPath video_id)

/-- Some failure record in `l` has id `x`. -/
def hasId (l : List FailureRecord) (x : String) : Prop :=
  ∃ fr ∈ l, fr.id = x

lemma outputPath_inj {a b : String} (h : outputPath a = outputPath b) : a = b := by
  unfold outputPath output_dir at h
  have h2 := congrArg String.data h
  simp only [String.data_append, List.append_assoc] at h2
  have h3 := List.append_cancel_left h2
  have h4 := List.append_cancel_left h3
  exact String.ext (List.append_cancel_right h4)

lemma outputPath_ne_failed (x : String) : outputPath x ≠ failedSubtitlesPath := by
  intro h
  have h2 := congrArg String.data h
  simp only [outputPath, output_dir, failedSubtitlesPath, String.data_append,
    List.append_assoc] at h2
  have h3 := congrArg (fun l => l[10]?) h2
  simp only at h3
  rw [List.getElem?_append, if_pos (by decide)] at h3
  have h5 : some 's' = some 'f' := by
    calc some 's' = ("reference/subtitles".data)[10]? := by decide
    _ = ("reference/failed_subtitles.json".data)[10]? := h3
    _ = some 'f' := by decide
  simp at h5

lemma fsLookup_write (fs : List (String × FileContent)) (q p : String) (c : FileContent) :
    fsLookup (fsWrite fs q c) p = if q = p then some c else fsLookup fs p := by
  by_cases h : q = p
  · subst h; simp [fsWrite, fsLookup, List.find?]
  · have hb : (q == p) = false := by simp [h]
    simp [fsWrite, fsLookup, List.find?, hb, h]

lemma descriptorError_some (env : Env) (x u : String) :
    descriptorError env x (some u) = videoFails env x := by
  unfold descriptorError videoFails
  cases env.list x with
  | exn e => rfl
  | ok ts =>
    cases hs : select_transcript ts with
    | none => rfl
    | some t =>
      cases t.fetched with
      | exn e => rfl
      | ok d => rfl

lemma processOne_skip (env : Env) (v : VideoDescriptor) (s : RunState) (x ti : String)
    (hid : v.id? = some x) (hti : v.title? = some ti)
    (hc : (fsLookup s.fs (outputPath x)).isSome) :
    processOne env v s = PyResult.ok
      { s with success_count := s.success_count + 1,
               outcomes := s.outcomes ++ [Outcome.skip] } := by
  unfold processOne
  rw [hid, hti]
  simp [hc]

lemma processOne_total (env : Env) (v : VideoDescriptor) (s : RunState) (x ti : String)
    (hid : v.id? = some x) (hti : v.title? = some ti) :
    ∃ s1, processOne env v s = PyResult.ok s1 := by
  by_cases hc : (fsLookup s.fs (outputPath x)).isSome
  · exact ⟨_, processOne_skip env v s x ti hid hti hc⟩
  · refine ⟨tryBlock env v x ti (outputPath x) s, ?_⟩
    unfold processOne
    rw [hid, hti]
    simp [hc]

/-- Full characterization of a non-aborting loop iteration: a skip, a
successful fetch-and-write, or a caught failure. -/
lemma processOne_cases (env : Env) (v : VideoDescriptor) (s s1 : RunState)
    (h : processOne env v s = PyResult.ok s1) :
    ∃ x ti, v.id? = some x ∧ v.title? = some ti ∧
    (((fsLookup s.fs (outputPath x)).isSome ∧
        s1 = { s with success_count := s.success_count + 1,
                      outcomes := s.outcomes ++ [Outcome.skip] }) ∨
     (fsLookup s.fs (outputPath x) = none ∧
        descriptorError env x v.url? = none ∧
        ∃ r : TranscriptRecord, r.video_id = x ∧
          s1 = { s with
                 fs := fsWrite s.fs (outputPath x) (FileContent.record r),
                 writes := s.writes ++
                   [⟨outputPath x, FileContent.record r, ("utf-8"), false, 2⟩],
                 success_count := s.success_count + 1,
                 outcomes := s.outcomes ++ [Outcome.success],
                 sleeps := s.sleeps ++ [(0.5 : Rat)],
                 listCalls := s.listCalls ++ [x],
                 fetchCount := s.fetchCount + 1 }) ∨
     (fsLookup s.fs (outputPath x) = none ∧
        ∃ e, descriptorError env x v.url? = some e ∧
        ∃ fc o d,
          ((o = Outcome.noSubtitles ∧ d = (0.5 : Rat)) ∨
           (o = Outcome.error ∧ d = (1 : Rat))) ∧
          s1 = { s with
                 failed_videos := s.failed_videos ++ [⟨x, ti, e⟩],
                 fail_count := s.fail_count + 1,
                 outcomes := s.outcomes ++ [o],
                 sleeps := s.sleeps ++ [d],
                 listCalls := s.listCalls ++ [x],
                 fetchCount := s.fetchCount + fc })) := by
  obtain ⟨oi, oti, ou⟩ := v
  cases oi with
  | none => simp [processOne] at h
  | some x =>
  cases oti with
  | none => simp [processOne] at h
  | some ti =>
  refine ⟨x, ti, rfl, rfl, ?_⟩
  by_cases hc : (fsLookup s.fs (outputPath x)).isSome
  · left
    rw [processOne_skip env _ s x ti rfl rfl hc] at h
    injection h with h2
    exact ⟨hc, h2.symm⟩
  · have hn : fsLookup s.fs (outputPath x) = none :=
      Option.not_isSome_iff_eq_none.mp hc
    have htb : processOne env ⟨some x, some ti, ou⟩ s =
        PyResult.ok (tryBlock env ⟨some x, some ti, ou⟩ x ti (outputPath x) s) := by
      unfold processOne
      simp [hc]
    rw [htb] at h
    injection h with h2
    subst h2
    cases hl : env.list x with
    | exn e =>
      right; right
      refine ⟨hn, e, ?_, 0, Outcome.error, 1, Or.inr ⟨rfl, rfl⟩, ?_⟩
      · simp only [descriptorError, hl]
      · simp [tryBlock, hl, recordException]
    | ok ts =>
      cases hs : select_transcript ts with
      | none =>
        right; right
        refine ⟨hn, ("No transcript found"), ?_, 0, Outcome.noSubtitles, 0.5,
          Or.inl ⟨rfl, rfl⟩, ?_⟩
        · simp only [descriptorError, hl, hs]
        · simp [tryBlock, hl, hs]
      | some t =>
        cases hf : t.fetched with
        | exn e =>
          right; right
          refine ⟨hn, e, ?_, 1, Outcome.error, 1, Or.inr ⟨rfl, rfl⟩, ?_⟩
          · simp only [descriptorError, hl, hs, hf]
          · simp [tryBlock, hl, hs, hf, recordException]
        | ok segs =>
          cases ou with
          | none =>
            right; right
            refine ⟨hn, ("KeyError: url"), ?_, 1, Outcome.error, 1,
              Or.inr ⟨rfl, rfl⟩, ?_⟩
            · simp only [descriptorError, hl, hs, hf]
            · simp [tryBlock, hl, hs, hf, recordException]
          | some u =>
            cases hw : env.writeError (outputPath x) with
            | some e =>
              right; right
              refine ⟨hn, e, ?_, 1, Outcome.error, 1, Or.inr ⟨rfl, rfl⟩, ?_⟩
              · simp only [descriptorError, hl, hs, hf, hw]
              · simp [tryBlock, hl, hs, hf, hw, recordException]
            | none =>
              right; left
              refine ⟨hn, ?_, ⟨x, ti, u, t.language_code, segs⟩, rfl, ?_⟩
              · simp only [descriptorError, hl, hs, hf, hw]
              · simp [tryBlock, hl, hs, hf, hw]

lemma hasId_append (l : List FailureRecord) (fr : FailureRecord) (x : String) :
    hasId (l ++ [fr]) x ↔ hasId l x ∨ fr.id = x := by
  unfold hasId
  constructor
  · rintro ⟨g, hg, hgx⟩
    rcases List.mem_append.mp hg with h1 | h1
    · exact Or.inl ⟨g, h1, hgx⟩
    · simp at h1; subst h1; exact Or.inr hgx
  · rintro (⟨g, h1, hgx⟩ | hx)
    · exact ⟨g, List.mem_append_left _ h1, hgx⟩
    · exact ⟨fr, List.mem_append_right _ (by simp), hx⟩

/-- Effects of one non-aborting iteration needed by the run-level
invariants: counter deltas, failure-list delta, preservation of existing
files, and the shape of any new write. -/
lemma processOne_effects (env : Env) (v : VideoDescriptor) (s s1 : RunState)
    (h : processOne env v s = PyResult.ok s1) :
    s1.success_count + s1.fail_count = s.success_count + s.fail_count + 1 ∧
    s1.outcomes.length = s.outcomes.length + 1 ∧
    ((s1.fail_count = s.fail_count ∧ s1.failed_videos = s.failed_videos) ∨
      (∃ fr, s1.fail_count = s.fail_count + 1 ∧
        s1.failed_videos = s.failed_videos ++ [fr])) ∧
    (∀ p c, fsLookup s.fs p = some c → fsLookup s1.fs p = some c) ∧
    ((s1.writes = s.writes) ∨
      (∃ w, (∃ y, w.path = outputPath y) ∧ s1.writes = s.writes ++ [w])) := by
  obtain ⟨x, ti, hid, hti, hcase⟩ := processOne_cases env v s s1 h
  rcases hcase with ⟨hc, rfl⟩ | ⟨hn, hd, r, hr, rfl⟩ | ⟨hn, e, hd, fc, o, d, ho, rfl⟩
  · exact ⟨by dsimp only; omega, by simp, Or.inl ⟨rfl, rfl⟩, fun p c hp => hp, Or.inl rfl⟩
  · refine ⟨by dsimp only; omega, by simp, Or.inl ⟨rfl, rfl⟩, ?_, ?_⟩
    · intro p c hp
      show fsLookup (fsWrite s.fs (outputPath x) _) p = some c
      rw [fsLookup_write]
      split
      · rename_i hq
        rw [← hq] at hp
        rw [hn] at hp
        exact absurd hp (by simp)
      · exact hp
    · exact Or.inr ⟨_, ⟨x, rfl⟩, rfl⟩
  · exact ⟨by dsimp only; omega, by simp, Or.inr ⟨⟨x, ti, e⟩, rfl, rfl⟩, fun p c hp => hp, Or.inl rfl⟩

/-- Loop-level accumulation of the per-step effects. -/
lemma runLoop_effects (env : Env) :
    ∀ (vs : List VideoDescriptor) (s s1 : RunState),
    runLoop env vs s = PyResult.ok s1 →
    s1.success_count + s1.fail_count = s.success_count + s.fail_count + vs.length ∧
    s1.outcomes.length = s.outcomes.length + vs.length ∧
    s.fail_count ≤ s1.fail_count ∧
    s1.failed_videos.length + s.fail_count = s.failed_videos.length + s1.fail_count ∧
    (∀ p c, fsLookup s.fs p = some c → fsLookup s1.fs p = some c) ∧
    (∀ fr, fr ∈ s.failed_videos → fr ∈ s1.failed_videos) ∧
    (∀ w, w ∈ s1.writes → w ∈ s.writes ∨ ∃ y, w.path = outputPath y) := by
  intro vs
  induction vs with
  | nil =>
    intro s s1 h
    injection h with h2
    subst h2
    exact ⟨by simp, by simp, le_refl _, by simp, fun p c hp => hp,
      fun fr hfr => hfr, fun w hw => Or.inl hw⟩
  | cons v rest ih =>
    intro s s1 h
    unfold runLoop at h
    cases hp : processOne env v s with
    | exn e => rw [hp] at h; exact absurd h (by simp)
    | ok smid =>
      rw [hp] at h
      obtain ⟨e1, e2, e3, e4, e5⟩ := processOne_effects env v s smid hp
      obtain ⟨f1, f2, f3, f4, f5, f6, f7⟩ := ih smid s1 h
      refine ⟨by simp only [List.length_cons]; omega,
        by simp only [List.length_cons]; omega, ?_, ?_, ?_, ?_, ?_⟩
      · rcases e3 with ⟨hfc, _⟩ | ⟨fr, hfc, _⟩ <;> omega
      · rcases e3 with ⟨hfc, hfl⟩ | ⟨fr, hfc, hfl⟩
        · have hlen : smid.failed_videos.length = s.failed_videos.length := by
            rw [hfl]
          omega
        · have hlen : smid.failed_videos.length = s.failed_videos.length + 1 := by
            rw [hfl]; simp
          omega
      · exact fun p c hp2 => f5 p c (e4 p c hp2)
      · intro fr hfr
        rcases e3 with ⟨_, hfl⟩ | ⟨fr2, _, hfl⟩
        · exact f6 fr (hfl ▸ hfr)
        · exact f6 fr (by rw [hfl]; exact List.mem_append_left _ hfr)
      · intro w hw
        rcases f7 w hw with hmem | hy
        · rcases e5 with he | ⟨w2, hw2, he⟩
          · exact Or.inl (he ▸ hmem)
          · rw [he] at hmem
            rcases List.mem_append.mp hmem with hm | hm
            · exact Or.inl hm
            · simp at hm
              subst hm
              exact Or.inr hw2
        · exact Or.inr hy

/-- Loop invariant: every recorded failure has no output file yet, and its
id fails deterministically in this environment. -/
def Good (env : Env) (s : RunState) : Prop :=
  ∀ fr ∈ s.failed_videos,
    fsLookup s.fs (outputPath fr.id) = none ∧ videoFails env fr.id ≠ none

/-- Exactly one of: the output file for id `x` exists, or a failure entry
with id `x` is recorded. -/
def XOne (s : RunState) (x : String) : Prop :=
  ((fsLookup s.fs (outputPath x)).isSome ∧ ¬ hasId s.failed_videos x) ∨
  (fsLookup s.fs (outputPath x) = none ∧ hasId s.failed_videos x)

lemma processOne_good (env : Env) (v : VideoDescriptor) (s s1 : RunState)
    (x ti u : String)
    (hid : v.id? = some x) (hti : v.title? = some ti) (hu : v.url? = some u)
    (hg : Good env s) (h : processOne env v s = PyResult.ok s1) :
    Good env s1 ∧ XOne s1 x ∧ (∀ y, XOne s y → XOne s1 y) := by
  obtain ⟨x0, ti0, hid0, hti0, hcase⟩ := processOne_cases env v s s1 h
  rw [hid] at hid0
  injection hid0 with hx0
  subst hx0
  rcases hcase with ⟨hc, rfl⟩ | ⟨hn, hd, r, hr, rfl⟩ | ⟨hn, e, hd, fc, o, d, ho, rfl⟩
  · refine ⟨hg, Or.inl ⟨hc, ?_⟩, fun y hy => hy⟩
    rintro ⟨fr, hfr, hfrid⟩
    obtain ⟨hnone, _⟩ := hg fr hfr
    rw [hfrid] at hnone
    rw [hnone] at hc
    exact absurd hc (by simp)
  · rw [hu, descriptorError_some] at hd
    refine ⟨?_, Or.inl ⟨?_, ?_⟩, ?_⟩
    · intro fr hfr
      obtain ⟨hnone, hdoom⟩ := hg fr hfr
      refine ⟨?_, hdoom⟩
      show fsLookup (fsWrite s.fs (outputPath x) _) (outputPath fr.id) = none
      rw [fsLookup_write]
      split
      · rename_i hq
        have hxfr := outputPath_inj hq
        rw [← hxfr] at hdoom
        exact absurd hd hdoom
      · exact hnone
    · show (fsLookup (fsWrite s.fs (outputPath x) _) (outputPath x)).isSome
      rw [fsLookup_write, if_pos rfl]
      simp
    · rintro ⟨fr, hfr, hfrid⟩
      have hdoom := (hg fr hfr).2
      rw [hfrid] at hdoom
      exact hdoom hd
    · intro y hy
      rcases hy with ⟨hys, hyn⟩ | ⟨hyn, hyf⟩
      · refine Or.inl ⟨?_, hyn⟩
        show (fsLookup (fsWrite s.fs (outputPath x) _) (outputPath y)).isSome
        rw [fsLookup_write]
        split
        · simp
        · exact hys
      · obtain ⟨fr, hfr, hfrid⟩ := hyf
        have hdoom := (hg fr hfr).2
        rw [hfrid] at hdoom
        have hxy : x ≠ y := fun hxy => hdoom (hxy ▸ hd)
        refine Or.inr ⟨?_, ⟨fr, hfr, hfrid⟩⟩
        show fsLookup (fsWrite s.fs (outputPath x) _) (outputPath y) = none
        rw [fsLookup_write, if_neg (fun hq => hxy (outputPath_inj hq))]
        exact hyn
  · rw [hu, descriptorError_some] at hd
    refine ⟨?_, Or.inr ⟨hn, ?_⟩, ?_⟩
    · intro fr hfr
      have hfr2 : fr ∈ s.failed_videos ++ [⟨x, ti0, e⟩] := hfr
      rcases List.mem_append.mp hfr2 with h1 | h1
      · exact hg fr h1
      · simp at h1
        subst h1
        exact ⟨hn, by rw [hd]; simp⟩
    · exact ⟨⟨x, ti0, e⟩, List.mem_append_right _ (by simp), rfl⟩
    · intro y hy
      rcases hy with ⟨hys, hyn⟩ | ⟨hyn, hyf⟩
      · refine Or.inl ⟨hys, ?_⟩
        intro hy1
        have hy2 : hasId (s.failed_videos ++ [⟨x, ti0, e⟩]) y := hy1
        rcases (hasId_append _ _ _).mp hy2 with h1 | h1
        · exact hyn h1
        · have hxy : x = y := h1
          rw [hxy] at hn
          rw [hn] at hys
          exact absurd hys (by simp)
      · exact Or.inr ⟨hyn, (hasId_append _ _ _).mpr (Or.inl hyf)⟩

lemma runLoop_good (env : Env) :
    ∀ (vs : List VideoDescriptor) (s s1 : RunState),
    (∀ v ∈ vs, ∃ x ti u, v.id? = some x ∧ v.title? = some ti ∧ v.url? = some u) →
    Good env s → runLoop env vs s = PyResult.ok s1 →
    Good env s1 ∧ (∀ y, XOne s y → XOne s1 y) ∧
    (∀ v ∈ vs, ∀ x, v.id? = some x → XOne s1 x) := by
  intro vs
  induction vs with
  | nil =>
    intro s s1 hwf hg h
    injection h with h2
    subst h2
    exact ⟨hg, fun y hy => hy, by simp⟩
  | cons v rest ih =>
    intro s s1 hwf hg h
    unfold runLoop at h
    cases hp : processOne env v s with
    | exn e => rw [hp] at h; exact absurd h (by simp)
    | ok smid =>
      rw [hp] at h
      obtain ⟨x, ti, u, hid, hti, hu⟩ := hwf v (by simp)
      obtain ⟨g1, g2, g3⟩ := processOne_good env v s smid x ti u hid hti hu hg hp
      obtain ⟨k1, k2, k3⟩ := ih smid s1 (fun w hw => hwf w (by simp [hw])) g1 h
      refine ⟨k1, fun y hy => k2 y (g3 y hy), ?_⟩
      intro w hw x2 hx2
      rcases List.mem_cons.mp hw with h1 | h1
      · subst h1
        rw [hid] at hx2
        injection hx2 with hx2
        subst hx2
        exact k2 x g2
      · exact k3 w h1 x2 hx2

lemma saveFailed_fields (s : RunState) :
    (saveFailed s).failed_videos = s.failed_videos ∧
    (saveFailed s).success_count = s.success_count ∧
    (saveFailed s).fail_count = s.fail_count ∧
    (saveFailed s).outcomes = s.outcomes ∧
    (saveFailed s).sleeps = s.sleeps ∧
    (saveFailed s).listCalls = s.listCalls ∧
    (saveFailed s).fetchCount = s.fetchCount := by
  unfold saveFailed
  split <;> exact ⟨rfl, rfl, rfl, rfl, rfl, rfl, rfl⟩

lemma saveFailed_lookup_ne (s : RunState) (p : String)
    (hne : p ≠ failedSubtitlesPath) :
    fsLookup (saveFailed s).fs p = fsLookup s.fs p := by
  unfold saveFailed
  split
  · rfl
  · show fsLookup (fsWrite s.fs failedSubtitlesPath _) p = _
    rw [fsLookup_write, if_neg]
    intro hq
    exact hne hq.symm

lemma saveFailed_lookup (s : RunState) (x : String) :
    fsLookup (saveFailed s).fs (outputPath x) = fsLookup s.fs (outputPath x) :=
  saveFailed_lookup_ne s (outputPath x) (outputPath_ne_failed x)

lemma run_eq (env : Env) (vs : List VideoDescriptor)
    (fs0 : List (String × FileContent)) (s : RunState)
    (h : run env vs fs0 = PyResult.ok s) :
    ∃ sl, runLoop env vs (startState fs0) = PyResult.ok sl ∧ s = saveFailed sl := by
  unfold run at h
  cases hl : runLoop env vs (startState fs0) with
  | exn e => rw [hl] at h; exact absurd h (by simp)
  | ok sl => rw [hl] at h; injection h with h2; exact ⟨sl, rfl, h2.symm⟩

lemma processOne_missing_id (env : Env) (v : VideoDescriptor) (s : RunState)
    (h : v.id? = none) : processOne env v s = PyResult.exn ("KeyError: id") := by
  unfold processOne
  rw [h]

lemma processOne_missing_title (env : Env) (v : VideoDescriptor) (s : RunState)
    (x : String) (hx : v.id? = some x) (h : v.title? = none) :
    processOne env v s = PyResult.exn ("KeyError: title") := by
  unfold processOne
  rw [hx, h]

lemma runLoop_total (env : Env) :
    ∀ (vs : List VideoDescriptor) (s : RunState),
    (∀ v ∈ vs, v.id?.isSome ∧ v.title?.isSome) →
    ∃ s1, runLoop env vs s = PyResult.ok s1 := by
  intro vs
  induction vs with
  | nil => exact fun s _ => ⟨s, rfl⟩
  | cons v rest ih =>
    intro s hwf
    obtain ⟨hv1, hv2⟩ := hwf v (by simp)
    obtain ⟨x, hx⟩ := Option.isSome_iff_exists.mp hv1
    obtain ⟨ti, hti⟩ := Option.isSome_iff_exists.mp hv2
    obtain ⟨smid, hp⟩ := processOne_total env v s x ti hx hti
    obtain ⟨s1, h1⟩ := ih smid (fun w hw => hwf w (by simp [hw]))
    refine ⟨s1, ?_⟩
    unfold runLoop
    rw [hp]
    exact h1

lemma runLoop_abort (env : Env) :
    ∀ (vs : List VideoDescriptor) (s : RunState),
    (∃ v ∈ vs, v.id? = none ∨ v.title? = none) →
    ∃ e, runLoop env vs s = PyResult.exn e := by
  intro vs
  induction vs with
  | nil => rintro s ⟨v, hv, _⟩; simp at hv
  | cons v rest ih =>
    rintro s ⟨w, hw, hbad⟩
    by_cases hv : v.id? = none ∨ v.title? = none
    · rcases hv with h1 | h1
      · refine ⟨("KeyError: id"), ?_⟩
        unfold runLoop
        rw [processOne_missing_id env v s h1]
      · cases hx : v.id? with
        | none =>
          refine ⟨("KeyError: id"), ?_⟩
          unfold runLoop
          rw [processOne_missing_id env v s hx]
        | some x =>
          refine ⟨("KeyError: title"), ?_⟩
          unfold runLoop
          rw [processOne_missing_title env v s x hx h1]
    · push_neg at hv
      obtain ⟨hv1, hv2⟩ := hv
      obtain ⟨x, hx⟩ := Option.ne_none_iff_exists.mp hv1
      obtain ⟨ti, hti⟩ := Option.ne_none_iff_exists.mp hv2
      obtain ⟨smid, hp⟩ := processOne_total env v s x ti hx.symm hti.symm
      have hrest : ∃ u ∈ rest, u.id? = none ∨ u.title? = none := by
        rcases List.mem_cons.mp hw with h1 | h1
        · subst h1
          rcases hbad with h2 | h2
          · exact absurd h2 hv1
          · exact absurd h2 hv2
        · exact ⟨w, h1, hbad⟩
      obtain ⟨e, he⟩ := ih smid hrest
      refine ⟨e, ?_⟩
      unfold runLoop
      rw [hp]
      exact he

lemma runLoop_allFiles (env : Env) :
    ∀ (vs : List VideoDescriptor) (s s1 : RunState),
    runLoop env vs s = PyResult.ok s1 → s1.fail_count = s.fail_count →
    ∀ v ∈ vs, ∀ x, v.id? = some x → (fsLookup s1.fs (outputPath x)).isSome := by
  intro vs
  induction vs with
  | nil => rintro s s1 h _ v hv; simp at hv
  | cons v rest ih =>
    intro s s1 h hfc w hw x hx
    unfold runLoop at h
    cases hp : processOne env v s with
    | exn e => rw [hp] at h; exact absurd h (by simp)
    | ok smid =>
      rw [hp] at h
      obtain ⟨_, _, e3, e4, _⟩ := processOne_effects env v s smid hp
      obtain ⟨_, _, f3, _, f5, _, _⟩ := runLoop_effects env rest smid s1 h
      have hsmid : smid.fail_count = s.fail_count := by
        rcases e3 with ⟨h1, _⟩ | ⟨fr, h1, _⟩
        · exact h1
        · omega
      rcases List.mem_cons.mp hw with h1 | h1
      · subst h1
        obtain ⟨x0, ti0, hid0, hti0, hcase⟩ := processOne_cases env w s smid hp
        rw [hx] at hid0
        injection hid0 with hx0
        subst hx0
        rcases hcase with ⟨hc, rfl⟩ | ⟨hn, hd, r, hr, rfl⟩ | ⟨hn, e, hd, fc, o, d, ho, rfl⟩
        · obtain ⟨c, hc2⟩ := Option.isSome_iff_exists.mp hc
          have := f5 (outputPath x) c hc2
          simp [this]
        · have hw2 : fsLookup
              (fsWrite s.fs (outputPath x) (FileContent.record r)) (outputPath x) =
              some (FileContent.record r) := by
            rw [fsLookup_write, if_pos rfl]
          have := f5 (outputPath x) (FileContent.record r) hw2
          simp [this]
        · exfalso
          have hstep : s.fail_count + 1 = s.fail_count := hsmid
          omega
      · exact ih smid s1 h (by omega) w h1 x hx

lemma runLoop_skipAll (env : Env) :
    ∀ (vs : List VideoDescriptor) (s : RunState),
    (∀ v ∈ vs, ∃ x ti, v.id? = some x ∧ v.title? = some ti ∧
      (fsLookup s.fs (outputPath x)).isSome) →
    runLoop env vs s = PyResult.ok
      { s with success_count := s.success_count + vs.length,
               outcomes := s.outcomes ++ List.replicate vs.length Outcome.skip } := by
  intro vs
  induction vs with
  | nil =>
    intro s _
    simp [runLoop]
  | cons v rest ih =>
    intro s hwf
    obtain ⟨x, ti, hid, hti, hc⟩ := hwf v (by simp)
    have hrest : ∀ w ∈ rest, ∃ x2 ti2, w.id? = some x2 ∧ w.title? = some ti2 ∧
        (fsLookup s.fs (outputPath x2)).isSome :=
      fun w hw2 => hwf w (by simp [hw2])
    have hih := ih { s with success_count := s.success_count + 1,
                            outcomes := s.outcomes ++ [Outcome.skip] } hrest
    unfold runLoop
    rw [processOne_skip env v s x ti hid hti hc]
    show runLoop env rest { s with success_count := s.success_count + 1,
                                   outcomes := s.outcomes ++ [Outcome.skip] } = _
    rw [hih]
    refine congrArg PyResult.ok ?_
    have hsc : s.success_count + 1 + rest.length = s.success_count + (v :: rest).length := by
      simp only [List.length_cons]
      omega
    have hoc : (s.outcomes ++ [Outcome.skip]) ++ List.replicate rest.length Outcome.skip =
        s.outcomes ++ List.replicate (v :: rest).length Outcome.skip := by
      simp [List.length_cons, List.replicate_succ, List.append_assoc]
    simp only [RunState.mk.injEq, true_and, and_true]
    exact ⟨hsc, hoc⟩

/-- The pause (in time units, as slept by the script) that follows each
progress outcome: none on skip, 0.5 after a success, 0.5 after the
no-transcript branch (the `time.sleep(0.5)` sits after the if/else inside
the `try`), 1.0 after a caught exception. -/
def sleepFor : Outcome → List Rat
  | Outcome.skip => []
  | Outcome.success => [(0.5 : Rat)]
  | Outcome.noSubtitles => [(0.5 : Rat)]
  | Outcome.error => [(1 : Rat)]

/-- C1 (amended): for every processed descriptor, the pause emitted before
moving to the next descriptor is 0.5 time units after a successful
fetch-and-write AND after the no-transcript-found failure, 1.0 time units
only after a caught-exception failure, and no pause at all on the
skip-cache path. -/
theorem claim_C1_rate_limit_pause (env : Env) (v : VideoDescriptor) (s s1 : RunState)
    (o : Outcome) (h : processOne env v s = PyResult.ok s1)
    (ho : s1.outcomes = s.outcomes ++ [o]) :
    s1.sleeps = s.sleeps ++ sleepFor o := by
  obtain ⟨x, ti, hid, hti, hcase⟩ := processOne_cases env v s s1 h
  rcases hcase with ⟨hc, rfl⟩ | ⟨hn, hd, r, hr, rfl⟩ | ⟨hn, e, hd, fc, o2, d, ho2, rfl⟩
  · have h2 : s.outcomes ++ [Outcome.skip] = s.outcomes ++ [o] := ho
    have h3 : Outcome.skip = o := by simpa using List.append_cancel_left h2
    subst h3
    simp [sleepFor]
  · have h2 : s.outcomes ++ [Outcome.success] = s.outcomes ++ [o] := ho
    have h3 : Outcome.success = o := by simpa using List.append_cancel_left h2
    subst h3
    simp [sleepFor]
  · have h2 : s.outcomes ++ [o2] = s.outcomes ++ [o] := ho
    have h3 : o2 = o := by simpa using List.append_cancel_left h2
    subst h3
    rcases ho2 with ⟨rfl, rfl⟩ | ⟨rfl, rfl⟩ <;> simp [sleepFor]

/-- C1 counterexample: a video whose transcript collection is empty takes
the no-transcript-found failure branch, and the pause slept there is 0.5
time units, not the 1.0 the claim asserts for every failure. -/
theorem claim_C1_cex :
    processOne (Env.mk (fun _ => PyResult.ok []) (fun _ => none))
        ⟨some ("v1"), some ("T"), some ("u")⟩ (startState []) =
      PyResult.ok (RunState.mk [] 0 1 [⟨("v1"), ("T"), ("No transcript found")⟩]
        [Outcome.noSubtitles] [(0.5 : Rat)] [("v1")] 0 []) ∧
    [(0.5 : Rat)] ≠ [(1 : Rat)] :=
  ⟨rfl, by norm_num⟩

/-- Witness for C1: the amended theorem applied to the concrete
no-transcript run above. -/
theorem claim_C1_witness :
    (RunState.mk [] 0 1 [⟨("v1"), ("T"), ("No transcript found")⟩]
      [Outcome.noSubtitles] [(0.5 : Rat)] [("v1")] 0 []).sleeps =
    (startState []).sleeps ++ sleepFor Outcome.noSubtitles :=
  claim_C1_rate_limit_pause (Env.mk (fun _ => PyResult.ok []) (fun _ => none))
    ⟨some ("v1"), some ("T"), some ("u")⟩ (startState [])
    (RunState.mk [] 0 1 [⟨("v1"), ("T"), ("No transcript found")⟩]
      [Outcome.noSubtitles] [(0.5 : Rat)] [("v1")] 0 [])
    Outcome.noSubtitles rfl rfl

/-- C2 (amended): at the end of a completed run, success_count +
fail_count equals the TOTAL number of descriptors (one progress outcome
per descriptor); skipped descriptors are counted inside success_count,
not excluded. -/
theorem claim_C2_counter_totals (env : Env) (vs : List VideoDescriptor)
    (fs0 : List (String × FileContent)) (s : RunState)
    (h : run env vs fs0 = PyResult.ok s) :
    s.success_count + s.fail_count = vs.length ∧ s.outcomes.length = vs.length := by
  obtain ⟨sl, hl, rfl⟩ := run_eq env vs fs0 s h
  obtain ⟨f1, f2, _⟩ := runLoop_effects env vs (startState fs0) sl hl
  obtain ⟨g1, g2, g3, g4, _⟩ := saveFailed_fields sl
  have h0s : (startState fs0).success_count = 0 := rfl
  have h0f : (startState fs0).fail_count = 0 := rfl
  have h0o : (startState fs0).outcomes.length = 0 := rfl
  constructor
  · rw [g2, g3]; omega
  · rw [g4]; omega

/-- C2 counterexample: a single descriptor whose output file already
exists is skipped; the run ends with success_count + fail_count = 1 while
the number of non-skipped descriptors is 0. -/
theorem claim_C2_cex :
    run (Env.mk (fun _ => PyResult.ok []) (fun _ => none))
        [⟨some ("v1"), some ("T"), some ("u")⟩]
        [(outputPath ("v1"), FileContent.raw ("x"))] =
      PyResult.ok (RunState.mk [(outputPath ("v1"), FileContent.raw ("x"))]
        1 0 [] [Outcome.skip] [] [] 0 []) ∧
    ¬ ((RunState.mk [(outputPath ("v1"), FileContent.raw ("x"))]
          1 0 [] [Outcome.skip] [] [] 0 []).success_count +
        (RunState.mk [(outputPath ("v1"), FileContent.raw ("x"))]
          1 0 [] [Outcome.skip] [] [] 0 []).fail_count =
       (List.filter (fun o => o != Outcome.skip)
         (RunState.mk [(outputPath ("v1"), FileContent.raw ("x"))]
           1 0 [] [Outcome.skip] [] [] 0 []).outcomes).length) :=
  ⟨rfl, by decide⟩

/-- Witness for C2: the amended theorem applied to the concrete
one-descriptor skip run. -/
theorem claim_C2_witness :
    (RunState.mk [(outputPath ("v1"), FileContent.raw ("x"))]
        1 0 [] [Outcome.skip] [] [] 0 []).success_count +
      (RunState.mk [(outputPath ("v1"), FileContent.raw ("x"))]
        1 0 [] [Outcome.skip] [] [] 0 []).fail_count =
      List.length [(⟨some ("v1"), some ("T"), some ("u")⟩ : VideoDescriptor)] ∧
    (RunState.mk [(outputPath ("v1"), FileContent.raw ("x"))]
        1 0 [] [Outcome.skip] [] [] 0 []).outcomes.length =
      List.length [(⟨some ("v1"), some ("T"), some ("u")⟩ : VideoDescriptor)] :=
  claim_C2_counter_totals (Env.mk (fun _ => PyResult.ok []) (fun _ => none))
    [⟨some ("v1"), some ("T"), some ("u")⟩]
    [(outputPath ("v1"), FileContent.raw ("x"))]
    (RunState.mk [(outputPath ("v1"), FileContent.raw ("x"))]
      1 0 [] [Outcome.skip] [] [] 0 []) rfl

/-- C3: for every VideoDescriptor of the input (carrying the id, title
and url fields its data model requires), by the end of a completed run
exactly one of {its output file exists, a failure entry with its id is
present} holds; a skipped video falls on the file-exists side with no
FailureRecord. -/
theorem claim_C3_exactly_one (env : Env) (vs : List VideoDescriptor)
    (fs0 : List (String × FileContent)) (s : RunState)
    (hwf : ∀ v ∈ vs, ∃ x ti u, v.id? = some x ∧ v.title? = some ti ∧ v.url? = some u)
    (h : run env vs fs0 = PyResult.ok s) :
    ∀ v ∈ vs, ∀ x, v.id? = some x →
      (((fsLookup s.fs (outputPath x)).isSome ∧ ¬ hasId s.failed_videos x) ∨
       (¬ (fsLookup s.fs (outputPath x)).isSome ∧ hasId s.failed_videos x)) := by
  obtain ⟨sl, hl, rfl⟩ := run_eq env vs fs0 s h
  have hg0 : Good env (startState fs0) := by
    intro fr hfr
    simp [startState] at hfr
  obtain ⟨_, _, k3⟩ := runLoop_good env vs (startState fs0) sl hwf hg0 hl
  intro v hv x hx
  have hx1 := k3 v hv x hx
  rcases hx1 with ⟨ha, hb⟩ | ⟨ha, hb⟩
  · left
    constructor
    · rw [saveFailed_lookup]; exact ha
    · rw [(saveFailed_fields sl).1]; exact hb
  · right
    constructor
    · rw [saveFailed_lookup, ha]; simp
    · rw [(saveFailed_fields sl).1]; exact hb

/-- Witness for C3: a one-descriptor run with an empty transcript
collection ends with a failure entry for the id and no output file. -/
theorem claim_C3_witness :
    ((fsLookup (RunState.mk [(failedSubtitlesPath,
          FileContent.failures [⟨("v1"), ("T"), ("No transcript found")⟩])]
        0 1 [⟨("v1"), ("T"), ("No transcript found")⟩] [Outcome.noSubtitles]
        [(0.5 : Rat)] [("v1")] 0
        [⟨failedSubtitlesPath,
          FileContent.failures [⟨("v1"), ("T"), ("No transcript found")⟩],
          ("utf-8"), false, 2⟩]).fs (outputPath ("v1"))).isSome ∧
      ¬ hasId (RunState.mk [(failedSubtitlesPath,
          FileContent.failures [⟨("v1"), ("T"), ("No transcript found")⟩])]
        0 1 [⟨("v1"), ("T"), ("No transcript found")⟩] [Outcome.noSubtitles]
        [(0.5 : Rat)] [("v1")] 0
        [⟨failedSubtitlesPath,
          FileContent.failures [⟨("v1"), ("T"), ("No transcript found")⟩],
          ("utf-8"), false, 2⟩]).failed_videos ("v1")) ∨
    (¬ (fsLookup (RunState.mk [(failedSubtitlesPath,
          FileContent.failures [⟨("v1"), ("T"), ("No transcript found")⟩])]
        0 1 [⟨("v1"), ("T"), ("No transcript found")⟩] [Outcome.noSubtitles]
        [(0.5 : Rat)] [("v1")] 0
        [⟨failedSubtitlesPath,
          FileContent.failures [⟨("v1"), ("T"), ("No transcript found")⟩],
          ("utf-8"), false, 2⟩]).fs (outputPath ("v1"))).isSome ∧
      hasId (RunState.mk [(failedSubtitlesPath,
          FileContent.failures [⟨("v1"), ("T"), ("No transcript found")⟩])]
        0 1 [⟨("v1"), ("T"), ("No transcript found")⟩] [Outcome.noSubtitles]
        [(0.5 : Rat)] [("v1")] 0
        [⟨failedSubtitlesPath,
          FileContent.failures [⟨("v1"), ("T"), ("No transcript found")⟩],
          ("utf-8"), false, 2⟩]).failed_videos ("v1")) :=
  claim_C3_exactly_one (Env.mk (fun _ => PyResult.ok []) (fun _ => none))
    [⟨some ("v1"), some ("T"), some ("u")⟩] []
    (RunState.mk [(failedSubtitlesPath,
        FileContent.failures [⟨("v1"), ("T"), ("No transcript found")⟩])]
      0 1 [⟨("v1"), ("T"), ("No transcript found")⟩] [Outcome.noSubtitles]
      [(0.5 : Rat)] [("v1")] 0
      [⟨failedSubtitlesPath,
        FileContent.failures [⟨("v1"), ("T"), ("No transcript found")⟩],
        ("utf-8"), false, 2⟩])
    (by
      intro w hw
      simp at hw
      subst hw
      exact ⟨("v1"), ("T"), ("u"), rfl, rfl, rfl⟩)
    rfl
    ⟨some ("v1"), some ("T"), some ("u")⟩ (by simp) ("v1") rfl

/-- C4: transcript selection follows the fallback chain, stopping at the
first success: generated ko/en (with the ko-before-en preference of the
listed order), else manually created ko/en, else the first transcript in
the enumeration order of the collection; and a collection holding only a
manually created "en" transcript and a generated "fr" transcript selects
the manually created "en" one. -/
theorem claim_C4_selection_chain :
    (∀ ts t, find_generated_transcript ts [("ko"), ("en")] = some t →
        select_transcript ts = some t) ∧
    (∀ ts t, find_generated_transcript ts [("ko"), ("en")] = none →
        find_manually_created_transcript ts [("ko"), ("en")] = some t →
        select_transcript ts = some t) ∧
    (∀ ts, find_generated_transcript ts [("ko"), ("en")] = none →
        find_manually_created_transcript ts [("ko"), ("en")] = none →
        select_transcript ts = ts.head?) ∧
    (∀ ts t, ts.find? (fun t2 => t2.is_generated && t2.language_code == ("ko")) = some t →
        select_transcript ts = some t) ∧
    (∀ tEn tFr : Transcript, tEn.is_generated = false → tEn.language_code = ("en") →
        tFr.is_generated = true → tFr.language_code = ("fr") →
        select_transcript [tEn, tFr] = some tEn) := by
  refine ⟨?_, ?_, ?_, ?_, ?_⟩
  · intro ts t hg
    unfold select_transcript
    rw [hg]
  · intro ts t hg hm
    unfold select_transcript
    rw [hg, hm]
  · intro ts hg hm
    unfold select_transcript
    rw [hg, hm]
  · intro ts t hko
    have hg : find_generated_transcript ts [("ko"), ("en")] = some t := by
      unfold find_generated_transcript
      simp [List.findSome?, hko]
    unfold select_transcript
    rw [hg]
  · intro tEn tFr h1 h2 h3 h4
    have hg : find_generated_transcript [tEn, tFr] [("ko"), ("en")] = none := by
      unfold find_generated_transcript
      simp [List.findSome?, List.find?, h1, h2, h3, h4]
    have hm : find_manually_created_transcript [tEn, tFr] [("ko"), ("en")] = some tEn := by
      unfold find_manually_created_transcript
      simp [List.findSome?, List.find?, h1, h2, h3, h4]
    unfold select_transcript
    rw [hg, hm]

/-- Witness for C4: the chain applied to concrete one- and two-element
collections, including the manual-en / generated-fr example. -/
theorem claim_C4_witness :
    select_transcript [⟨("ko"), true, PyResult.ok []⟩] =
      some ⟨("ko"), true, PyResult.ok []⟩ ∧
    select_transcript [⟨("en"), false, PyResult.ok []⟩] =
      some ⟨("en"), false, PyResult.ok []⟩ ∧
    select_transcript [⟨("de"), true, PyResult.ok []⟩] =
      List.head? [⟨("de"), true, PyResult.ok []⟩] ∧
    select_transcript [⟨("en"), false, PyResult.ok []⟩, ⟨("fr"), true, PyResult.ok []⟩] =
      some ⟨("en"), false, PyResult.ok []⟩ :=
  ⟨claim_C4_selection_chain.1 [⟨("ko"), true, PyResult.ok []⟩]
      ⟨("ko"), true, PyResult.ok []⟩ rfl,
   claim_C4_selection_chain.2.1 [⟨("en"), false, PyResult.ok []⟩]
      ⟨("en"), false, PyResult.ok []⟩ rfl rfl,
   claim_C4_selection_chain.2.2.1 [⟨("de"), true, PyResult.ok []⟩] rfl rfl,
   claim_C4_selection_chain.2.2.2.2 ⟨("en"), false, PyResult.ok []⟩
      ⟨("fr"), true, PyResult.ok []⟩ rfl rfl rfl rfl⟩

/-- C5: a processed video whose transcript collection lists zero
transcripts (listing raised no exception) gets a FailureRecord with error
text exactly "No transcript found", fail_count is incremented, and no
output file is created for it. -/
theorem claim_C5_empty_collection (env : Env) (v : VideoDescriptor) (s : RunState)
    (x ti : String) (hid : v.id? = some x) (hti : v.title? = some ti)
    (hn : fsLookup s.fs (outputPath x) = none)
    (hl : env.list x = PyResult.ok []) :
    processOne env v s = PyResult.ok
      { s with failed_videos := s.failed_videos ++ [⟨x, ti, ("No transcript found")⟩],
               fail_count := s.fail_count + 1,
               outcomes := s.outcomes ++ [Outcome.noSubtitles],
               sleeps := s.sleeps ++ [(0.5 : Rat)],
               listCalls := s.listCalls ++ [x] } ∧
    fsLookup s.fs (outputPath x) = none := by
  have hc : (fsLookup s.fs (outputPath x)).isSome = false := by rw [hn]; rfl
  refine ⟨?_, hn⟩
  unfold processOne
  rw [hid, hti]
  have hsel : select_transcript [] = none := rfl
  simp [hc, tryBlock, hl, hsel]

/-- Witness for C5: the empty-collection behaviour on a concrete video. -/
theorem claim_C5_witness :
    processOne (Env.mk (fun _ => PyResult.ok []) (fun _ => none))
        ⟨some ("v1"), some ("T"), some ("u")⟩ (startState []) =
      PyResult.ok (RunState.mk [] 0 1 [⟨("v1"), ("T"), ("No transcript found")⟩]
        [Outcome.noSubtitles] [(0.5 : Rat)] [("v1")] 0 []) ∧
    fsLookup (startState []).fs (outputPath ("v1")) = none :=
  claim_C5_empty_collection (Env.mk (fun _ => PyResult.ok []) (fun _ => none))
    ⟨some ("v1"), some ("T"), some ("u")⟩ (startState []) ("v1") ("T")
    rfl rfl rfl rfl

/-- C6: a successful fetch writes to `{output_dir}/{video_id}.json`, with
encoding "utf-8", `ensure_ascii = false` (non-ASCII preserved literally)
and `indent = 2` (pretty-printed), and the stored content is exactly the
record {video_id, title, url, language, transcript} built from the
descriptor, the language code of the selected transcript and the fetched
segments; reading the file back yields exactly that record. -/
theorem claim_C6_output_file (env : Env) (v : VideoDescriptor) (s : RunState)
    (x ti u : String) (ts : List Transcript) (t : Transcript) (segs : List Segment)
    (hid : v.id? = some x) (hti : v.title? = some ti) (hu : v.url? = some u)
    (hn : fsLookup s.fs (outputPath x) = none)
    (hl : env.list x = PyResult.ok ts)
    (hsel : select_transcript ts = some t)
    (hf : t.fetched = PyResult.ok segs)
    (hw : env.writeError (outputPath x) = none) :
    processOne env v s = PyResult.ok
      { s with
        fs := fsWrite s.fs (outputPath x)
          (FileContent.record ⟨x, ti, u, t.language_code, segs⟩),
        writes := s.writes ++
          [⟨outputPath x, FileContent.record ⟨x, ti, u, t.language_code, segs⟩,
            ("utf-8"), false, 2⟩],
        success_count := s.success_count + 1,
        outcomes := s.outcomes ++ [Outcome.success],
        sleeps := s.sleeps ++ [(0.5 : Rat)],
        listCalls := s.listCalls ++ [x],
        fetchCount := s.fetchCount + 1 } ∧
    fsLookup (fsWrite s.fs (outputPath x)
        (FileContent.record ⟨x, ti, u, t.language_code, segs⟩)) (outputPath x) =
      some (FileContent.record ⟨x, ti, u, t.language_code, segs⟩) := by
  have hc : (fsLookup s.fs (outputPath x)).isSome = false := by rw [hn]; rfl
  constructor
  · unfold processOne
    rw [hid, hti]
    simp [hc, tryBlock, hl, hsel, hf, hu, hw]
  · rw [fsLookup_write, if_pos rfl]

/-- Witness for C6: the example video abc123 of the spec with an "en"
transcript of one segment {hi, 0.0, 1.0}. -/
theorem claim_C6_witness :
    processOne (Env.mk
        (fun _ => PyResult.ok [⟨("en"), true, PyResult.ok [⟨("hi"), 0, 1⟩]⟩])
        (fun _ => none))
      ⟨some ("abc123"), some ("Test"), some ("http://x")⟩ (startState []) =
      PyResult.ok (RunState.mk
        [(outputPath ("abc123"),
          FileContent.record ⟨("abc123"), ("Test"), ("http://x"), ("en"),
            [⟨("hi"), 0, 1⟩]⟩)]
        1 0 [] [Outcome.success] [(0.5 : Rat)] [("abc123")] 1
        [⟨outputPath ("abc123"),
          FileContent.record ⟨("abc123"), ("Test"), ("http://x"), ("en"),
            [⟨("hi"), 0, 1⟩]⟩, ("utf-8"), false, 2⟩]) ∧
    fsLookup [(outputPath ("abc123"),
        FileContent.record ⟨("abc123"), ("Test"), ("http://x"), ("en"),
          [⟨("hi"), 0, 1⟩]⟩)] (outputPath ("abc123")) =
      some (FileContent.record ⟨("abc123"), ("Test"), ("http://x"), ("en"),
        [⟨("hi"), 0, 1⟩]⟩) :=
  claim_C6_output_file (Env.mk
      (fun _ => PyResult.ok [⟨("en"), true, PyResult.ok [⟨("hi"), 0, 1⟩]⟩])
      (fun _ => none))
    ⟨some ("abc123"), some ("Test"), some ("http://x")⟩ (startState [])
    ("abc123") ("Test") ("http://x")
    [⟨("en"), true, PyResult.ok [⟨("hi"), 0, 1⟩]⟩]
    ⟨("en"), true, PyResult.ok [⟨("hi"), 0, 1⟩]⟩ [⟨("hi"), 0, 1⟩]
    rfl rfl rfl rfl rfl rfl rfl rfl

/-- C7: the aggregate failure file is written (to its fixed path) iff at
least one video failed; when written its content is exactly the failure
list, one entry per failed video in processing order; with zero failures
no write to that path happens at all (fail_count coincides with the
length of the failure list). -/
theorem claim_C7_failure_log (env : Env) (vs : List VideoDescriptor)
    (fs0 : List (String × FileContent)) (s : RunState)
    (h : run env vs fs0 = PyResult.ok s) :
    ((∃ w ∈ s.writes, w.path = failedSubtitlesPath) ↔ s.failed_videos ≠ []) ∧
    (s.failed_videos ≠ [] →
      fsLookup s.fs failedSubtitlesPath = some (FileContent.failures s.failed_videos)) ∧
    s.fail_count = s.failed_videos.length := by
  obtain ⟨sl, hl, rfl⟩ := run_eq env vs fs0 s h
  obtain ⟨_, _, _, f4, _, _, f7⟩ := runLoop_effects env vs (startState fs0) sl hl
  have hfl : sl.fail_count = sl.failed_videos.length := by
    have h0 : (startState fs0).fail_count = 0 := rfl
    have h1 : (startState fs0).failed_videos.length = 0 := rfl
    omega
  have hnw : ∀ w ∈ sl.writes, w.path ≠ failedSubtitlesPath := by
    intro w hw2
    rcases f7 w hw2 with hmem | ⟨y, hy⟩
    · exact absurd hmem (by simp [startState])
    · rw [hy]; exact outputPath_ne_failed y
  by_cases he : sl.failed_videos = []
  · have hsf : saveFailed sl = sl := by
      unfold saveFailed
      rw [he]
      simp
    rw [hsf]
    refine ⟨?_, ?_, hfl⟩
    · constructor
      · rintro ⟨w, hw2, hp⟩
        exact absurd hp (hnw w hw2)
      · intro hne
        exact absurd he hne
    · intro hne
      exact absurd he hne
  · have hne2 : sl.failed_videos.isEmpty = false := by
      cases hx : sl.failed_videos with
      | nil => exact absurd hx he
      | cons a l => rfl
    have hsf : saveFailed sl =
        { sl with
          fs := fsWrite sl.fs failedSubtitlesPath
            (FileContent.failures sl.failed_videos),
          writes := sl.writes ++
            [⟨failedSubtitlesPath, FileContent.failures sl.failed_videos,
              ("utf-8"), false, 2⟩] } := by
      unfold saveFailed
      simp [hne2]
    rw [hsf]
    refine ⟨?_, ?_, hfl⟩
    · constructor
      · intro _
        exact he
      · intro _
        refine ⟨⟨failedSubtitlesPath, FileContent.failures sl.failed_videos,
          ("utf-8"), false, 2⟩, ?_, rfl⟩
        show _ ∈ sl.writes ++ [_]
        exact List.mem_append_right _ (by simp)
    · intro _
      show fsLookup (fsWrite sl.fs failedSubtitlesPath _) failedSubtitlesPath = _
      rw [fsLookup_write, if_pos rfl]

/-- Witness for C7: the worked example, videos v1 and v2 failing with "No
transcript found" and "network timeout"; the failure file holds exactly
those two entries in that order. -/
theorem claim_C7_witness :
    ((∃ w ∈ (RunState.mk
        [(failedSubtitlesPath, FileContent.failures
          [⟨("v1"), ("T1"), ("No transcript found")⟩,
           ⟨("v2"), ("T2"), ("network timeout")⟩])]
        0 2 [⟨("v1"), ("T1"), ("No transcript found")⟩,
             ⟨("v2"), ("T2"), ("network timeout")⟩]
        [Outcome.noSubtitles, Outcome.error] [(0.5 : Rat), (1 : Rat)]
        [("v1"), ("v2")] 0
        [⟨failedSubtitlesPath, FileContent.failures
          [⟨("v1"), ("T1"), ("No transcript found")⟩,
           ⟨("v2"), ("T2"), ("network timeout")⟩], ("utf-8"), false, 2⟩]).writes,
        w.path = failedSubtitlesPath) ↔
      (RunState.mk
        [(failedSubtitlesPath, FileContent.failures
          [⟨("v1"), ("T1"), ("No transcript found")⟩,
           ⟨("v2"), ("T2"), ("network timeout")⟩])]
        0 2 [⟨("v1"), ("T1"), ("No transcript found")⟩,
             ⟨("v2"), ("T2"), ("network timeout")⟩]
        [Outcome.noSubtitles, Outcome.error] [(0.5 : Rat), (1 : Rat)]
        [("v1"), ("v2")] 0
        [⟨failedSubtitlesPath, FileContent.failures
          [⟨("v1"), ("T1"), ("No transcript found")⟩,
           ⟨("v2"), ("T2"), ("network timeout")⟩], ("utf-8"), false, 2⟩]).failed_videos ≠ []) ∧
    ((RunState.mk
        [(failedSubtitlesPath, FileContent.failures
          [⟨("v1"), ("T1"), ("No transcript found")⟩,
           ⟨("v2"), ("T2"), ("network timeout")⟩])]
        0 2 [⟨("v1"), ("T1"), ("No transcript found")⟩,
             ⟨("v2"), ("T2"), ("network timeout")⟩]
        [Outcome.noSubtitles, Outcome.error] [(0.5 : Rat), (1 : Rat)]
        [("v1"), ("v2")] 0
        [⟨failedSubtitlesPath, FileContent.failures
          [⟨("v1"), ("T1"), ("No transcript found")⟩,
           ⟨("v2"), ("T2"), ("network timeout")⟩], ("utf-8"), false, 2⟩]).failed_videos ≠ [] →
      fsLookup (RunState.mk
        [(failedSubtitlesPath, FileContent.failures
          [⟨("v1"), ("T1"), ("No transcript found")⟩,
           ⟨("v2"), ("T2"), ("network timeout")⟩])]
        0 2 [⟨("v1"), ("T1"), ("No transcript found")⟩,
             ⟨("v2"), ("T2"), ("network timeout")⟩]
        [Outcome.noSubtitles, Outcome.error] [(0.5 : Rat), (1 : Rat)]
        [("v1"), ("v2")] 0
        [⟨failedSubtitlesPath, FileContent.failures
          [⟨("v1"), ("T1"), ("No transcript found")⟩,
           ⟨("v2"), ("T2"), ("network timeout")⟩], ("utf-8"), false, 2⟩]).fs
          failedSubtitlesPath =
        some (FileContent.failures (RunState.mk
        [(failedSubtitlesPath, FileContent.failures
          [⟨("v1"), ("T1"), ("No transcript found")⟩,
           ⟨("v2"), ("T2"), ("network timeout")⟩])]
        0 2 [⟨("v1"), ("T1"), ("No transcript found")⟩,
             ⟨("v2"), ("T2"), ("network timeout")⟩]
        [Outcome.noSubtitles, Outcome.error] [(0.5 : Rat), (1 : Rat)]
        [("v1"), ("v2")] 0
        [⟨failedSubtitlesPath, FileContent.failures
          [⟨("v1"), ("T1"), ("No transcript found")⟩,
           ⟨("v2"), ("T2"), ("network timeout")⟩], ("utf-8"), false, 2⟩]).failed_videos)) ∧
    (RunState.mk
        [(failedSubtitlesPath, FileContent.failures
          [⟨("v1"), ("T1"), ("No transcript found")⟩,
           ⟨("v2"), ("T2"), ("network timeout")⟩])]
        0 2 [⟨("v1"), ("T1"), ("No transcript found")⟩,
             ⟨("v2"), ("T2"), ("network timeout")⟩]
        [Outcome.noSubtitles, Outcome.error] [(0.5 : Rat), (1 : Rat)]
        [("v1"), ("v2")] 0
        [⟨failedSubtitlesPath, FileContent.failures
          [⟨("v1"), ("T1"), ("No transcript found")⟩,
           ⟨("v2"), ("T2"), ("network timeout")⟩], ("utf-8"), false, 2⟩]).fail_count =
      (RunState.mk
        [(failedSubtitlesPath, FileContent.failures
          [⟨("v1"), ("T1"), ("No transcript found")⟩,
           ⟨("v2"), ("T2"), ("network timeout")⟩])]
        0 2 [⟨("v1"), ("T1"), ("No transcript found")⟩,
             ⟨("v2"), ("T2"), ("network timeout")⟩]
        [Outcome.noSubtitles, Outcome.error] [(0.5 : Rat), (1 : Rat)]
        [("v1"), ("v2")] 0
        [⟨failedSubtitlesPath, FileContent.failures
          [⟨("v1"), ("T1"), ("No transcript found")⟩,
           ⟨("v2"), ("T2"), ("network timeout")⟩], ("utf-8"), false, 2⟩]).failed_videos.length :=
  claim_C7_failure_log
    (Env.mk (fun i => if i == ("v1") then PyResult.ok []
      else PyResult.exn ("network timeout")) (fun _ => none))
    [⟨some ("v1"), some ("T1"), some ("u1")⟩, ⟨some ("v2"), some ("T2"), some ("u2")⟩]
    []
    (RunState.mk
      [(failedSubtitlesPath, FileContent.failures
        [⟨("v1"), ("T1"), ("No transcript found")⟩,
         ⟨("v2"), ("T2"), ("network timeout")⟩])]
      0 2 [⟨("v1"), ("T1"), ("No transcript found")⟩,
           ⟨("v2"), ("T2"), ("network timeout")⟩]
      [Outcome.noSubtitles, Outcome.error] [(0.5 : Rat), (1 : Rat)]
      [("v1"), ("v2")] 0
      [⟨failedSubtitlesPath, FileContent.failures
        [⟨("v1"), ("T1"), ("No transcript found")⟩,
         ⟨("v2"), ("T2"), ("network timeout")⟩], ("utf-8"), false, 2⟩])
    rfl

/-- C8: an exception thrown while processing one video - during
transcript listing, fetching, or writing - is caught and recorded as a
FailureRecord whose error field is the textual description of the exception,
and the batch always completes, processing every remaining descriptor
(one progress outcome per descriptor). -/
theorem claim_C8_failure_isolation :
    (∀ (env : Env) (vs : List VideoDescriptor) (fs0 : List (String × FileContent)),
        (∀ v ∈ vs, v.id?.isSome ∧ v.title?.isSome) →
        ∃ s, run env vs fs0 = PyResult.ok s ∧ s.outcomes.length = vs.length) ∧
    (∀ (env : Env) (v : VideoDescriptor) (s : RunState) (x ti e : String),
        v.id? = some x → v.title? = some ti →
        fsLookup s.fs (outputPath x) = none → env.list x = PyResult.exn e →
        processOne env v s = PyResult.ok
          { s with failed_videos := s.failed_videos ++ [⟨x, ti, e⟩],
                   fail_count := s.fail_count + 1,
                   outcomes := s.outcomes ++ [Outcome.error],
                   sleeps := s.sleeps ++ [(1 : Rat)],
                   listCalls := s.listCalls ++ [x] }) ∧
    (∀ (env : Env) (v : VideoDescriptor) (s : RunState) (x ti e : String)
        (ts : List Transcript) (t : Transcript),
        v.id? = some x → v.title? = some ti →
        fsLookup s.fs (outputPath x) = none → env.list x = PyResult.ok ts →
        select_transcript ts = some t → t.fetched = PyResult.exn e →
        processOne env v s = PyResult.ok
          { s with failed_videos := s.failed_videos ++ [⟨x, ti, e⟩],
                   fail_count := s.fail_count + 1,
                   outcomes := s.outcomes ++ [Outcome.error],
                   sleeps := s.sleeps ++ [(1 : Rat)],
                   listCalls := s.listCalls ++ [x],
                   fetchCount := s.fetchCount + 1 }) ∧
    (∀ (env : Env) (v : VideoDescriptor) (s : RunState) (x ti u e : String)
        (ts : List Transcript) (t : Transcript) (segs : List Segment),
        v.id? = some x → v.title? = some ti → v.url? = some u →
        fsLookup s.fs (outputPath x) = none → env.list x = PyResult.ok ts →
        select_transcript ts = some t → t.fetched = PyResult.ok segs →
        env.writeError (outputPath x) = some e →
        processOne env v s = PyResult.ok
          { s with failed_videos := s.failed_videos ++ [⟨x, ti, e⟩],
                   fail_count := s.fail_count + 1,
                   outcomes := s.outcomes ++ [Outcome.error],
                   sleeps := s.sleeps ++ [(1 : Rat)],
                   listCalls := s.listCalls ++ [x],
                   fetchCount := s.fetchCount + 1 }) := by
  refine ⟨?_, ?_, ?_, ?_⟩
  · intro env vs fs0 hwf
    obtain ⟨sl, hl⟩ := runLoop_total env vs (startState fs0) hwf
    obtain ⟨_, f2, _⟩ := runLoop_effects env vs (startState fs0) sl hl
    refine ⟨saveFailed sl, ?_, ?_⟩
    · unfold run
      rw [hl]
    · rw [(saveFailed_fields sl).2.2.2.1]
      have h0o : (startState fs0).outcomes.length = 0 := rfl
      omega
  · intro env v s x ti e hid hti hn hl
    have hc : (fsLookup s.fs (outputPath x)).isSome = false := by rw [hn]; rfl
    unfold processOne
    rw [hid, hti]
    simp [hc, tryBlock, hl, recordException]
  · intro env v s x ti e ts t hid hti hn hl hsel hf
    have hc : (fsLookup s.fs (outputPath x)).isSome = false := by rw [hn]; rfl
    unfold processOne
    rw [hid, hti]
    simp [hc, tryBlock, hl, hsel, hf, recordException]
  · intro env v s x ti u e ts t segs hid hti hu hn hl hsel hf hw
    have hc : (fsLookup s.fs (outputPath x)).isSome = false := by rw [hn]; rfl
    unfold processOne
    rw [hid, hti]
    simp [hc, tryBlock, hl, hsel, hf, hu, hw, recordException]

/-- Witness for C8: concrete listing-, fetch- and write-exceptions are
each caught and recorded, and a batch containing them still completes. -/
theorem claim_C8_witness :
    (∃ s, run (Env.mk (fun _ => PyResult.exn ("boom")) (fun _ => none))
        [⟨some ("v1"), some ("T"), some ("u")⟩] [] = PyResult.ok s ∧
        s.outcomes.length =
          List.length [(⟨some ("v1"), some ("T"), some ("u")⟩ : VideoDescriptor)]) ∧
    processOne (Env.mk (fun _ => PyResult.exn ("boom")) (fun _ => none))
        ⟨some ("v1"), some ("T"), some ("u")⟩ (startState []) =
      PyResult.ok (RunState.mk [] 0 1 [⟨("v1"), ("T"), ("boom")⟩]
        [Outcome.error] [(1 : Rat)] [("v1")] 0 []) ∧
    processOne (Env.mk
        (fun _ => PyResult.ok [⟨("ko"), true, PyResult.exn ("fetch failed")⟩])
        (fun _ => none))
        ⟨some ("v1"), some ("T"), some ("u")⟩ (startState []) =
      PyResult.ok (RunState.mk [] 0 1 [⟨("v1"), ("T"), ("fetch failed")⟩]
        [Outcome.error] [(1 : Rat)] [("v1")] 1 []) ∧
    processOne (Env.mk
        (fun _ => PyResult.ok [⟨("ko"), true, PyResult.ok []⟩])
        (fun _ => some ("disk full")))
        ⟨some ("v1"), some ("T"), some ("u")⟩ (startState []) =
      PyResult.ok (RunState.mk [] 0 1 [⟨("v1"), ("T"), ("disk full")⟩]
        [Outcome.error] [(1 : Rat)] [("v1")] 1 []) :=
  ⟨claim_C8_failure_isolation.1
      (Env.mk (fun _ => PyResult.exn ("boom")) (fun _ => none))
      [⟨some ("v1"), some ("T"), some ("u")⟩] []
      (by
        intro w hw
        simp at hw
        subst hw
        exact ⟨rfl, rfl⟩),
   claim_C8_failure_isolation.2.1
      (Env.mk (fun _ => PyResult.exn ("boom")) (fun _ => none))
      ⟨some ("v1"), some ("T"), some ("u")⟩ (startState [])
      ("v1") ("T") ("boom") rfl rfl rfl rfl,
   claim_C8_failure_isolation.2.2.1
      (Env.mk (fun _ => PyResult.ok [⟨("ko"), true, PyResult.exn ("fetch failed")⟩])
        (fun _ => none))
      ⟨some ("v1"), some ("T"), some ("u")⟩ (startState [])
      ("v1") ("T") ("fetch failed")
      [⟨("ko"), true, PyResult.exn ("fetch failed")⟩]
      ⟨("ko"), true, PyResult.exn ("fetch failed")⟩
      rfl rfl rfl rfl rfl rfl,
   claim_C8_failure_isolation.2.2.2
      (Env.mk (fun _ => PyResult.ok [⟨("ko"), true, PyResult.ok []⟩])
        (fun _ => some ("disk full")))
      ⟨some ("v1"), some ("T"), some ("u")⟩ (startState [])
      ("v1") ("T") ("u") ("disk full")
      [⟨("ko"), true, PyResult.ok []⟩] ⟨("ko"), true, PyResult.ok []⟩ []
      rfl rfl rfl rfl rfl rfl rfl rfl⟩

/-- A run over a filesystem that already holds the output file of every video
only skips: nothing is fetched, nothing is slept, nothing is written. -/
lemma run_skipAll (env : Env) (vs : List VideoDescriptor)
    (fs1 : List (String × FileContent))
    (hwf : ∀ v ∈ vs, ∃ x ti, v.id? = some x ∧ v.title? = some ti ∧
      (fsLookup fs1 (outputPath x)).isSome) :
    run env vs fs1 = PyResult.ok
      { startState fs1 with success_count := vs.length,
                            outcomes := List.replicate vs.length Outcome.skip } := by
  have hloop := runLoop_skipAll env vs (startState fs1)
    (by intro v hv; exact hwf v hv)
  unfold run
  rw [hloop]
  show PyResult.ok (saveFailed { startState fs1 with
    success_count := (startState fs1).success_count + vs.length,
    outcomes := (startState fs1).outcomes ++ List.replicate vs.length Outcome.skip }) = _
  have hsf : saveFailed { startState fs1 with
      success_count := (startState fs1).success_count + vs.length,
      outcomes := (startState fs1).outcomes ++ List.replicate vs.length Outcome.skip } =
      { startState fs1 with
        success_count := (startState fs1).success_count + vs.length,
        outcomes := (startState fs1).outcomes ++ List.replicate vs.length Outcome.skip } := by
    unfold saveFailed
    rfl
  rw [hsf]
  refine congrArg PyResult.ok ?_
  simp only [RunState.mk.injEq, true_and, and_true]
  constructor
  · show 0 + vs.length = vs.length
    omega
  · show [] ++ List.replicate vs.length Outcome.skip = List.replicate vs.length Outcome.skip
    simp

/-- C9: (1) a video whose output file already exists is skipped: counted
as success, reported as skip, with no listing call, no fetch, no write
and no change to the filesystem; (2) a completed run never changes an
existing file other than the aggregate failure file, so a second run
leaves every previously written output file byte-identical; (3) rerunning
a fully successful batch on its own output reports every video as skip
counted as success, with zero listing/fetch calls and no writes. -/
theorem claim_C9_idempotent_rerun :
    (∀ (env : Env) (v : VideoDescriptor) (s : RunState) (x ti : String),
        v.id? = some x → v.title? = some ti →
        (fsLookup s.fs (outputPath x)).isSome →
        processOne env v s = PyResult.ok
          { s with success_count := s.success_count + 1,
                   outcomes := s.outcomes ++ [Outcome.skip] }) ∧
    (∀ (env : Env) (vs : List VideoDescriptor) (fs0 : List (String × FileContent))
        (s : RunState) (p : String) (c : FileContent),
        run env vs fs0 = PyResult.ok s → p ≠ failedSubtitlesPath →
        fsLookup fs0 p = some c → fsLookup s.fs p = some c) ∧
    (∀ (env : Env) (vs : List VideoDescriptor) (fs0 : List (String × FileContent))
        (s1 : RunState),
        (∀ v ∈ vs, ∃ x ti, v.id? = some x ∧ v.title? = some ti) →
        run env vs fs0 = PyResult.ok s1 → s1.fail_count = 0 →
        run env vs s1.fs = PyResult.ok
          { startState s1.fs with
            success_count := vs.length,
            outcomes := List.replicate vs.length Outcome.skip }) := by
  refine ⟨?_, ?_, ?_⟩
  · intro env v s x ti hid hti hc
    exact processOne_skip env v s x ti hid hti hc
  · intro env vs fs0 s p c h hne hp
    obtain ⟨sl, hl, rfl⟩ := run_eq env vs fs0 s h
    obtain ⟨_, _, _, _, f5, _, _⟩ := runLoop_effects env vs (startState fs0) sl hl
    rw [saveFailed_lookup_ne sl p hne]
    exact f5 p c hp
  · intro env vs fs0 s1 hwf h hfc0
    obtain ⟨sl, hl, hseq⟩ := run_eq env vs fs0 s1 h
    subst hseq
    rw [(saveFailed_fields sl).2.2.1] at hfc0
    obtain ⟨_, _, _, f4, _, _, _⟩ := runLoop_effects env vs (startState fs0) sl hl
    have hflen : sl.failed_videos.length = 0 := by
      have h0 : (startState fs0).fail_count = 0 := rfl
      have h1 : (startState fs0).failed_videos.length = 0 := rfl
      omega
    have hfe : sl.failed_videos = [] := List.eq_nil_of_length_eq_zero hflen
    have hsf : saveFailed sl = sl := by
      unfold saveFailed
      rw [hfe]
      simp
    have hall := runLoop_allFiles env vs (startState fs0) sl hl hfc0
    refine run_skipAll env vs (saveFailed sl).fs ?_
    intro v hv
    obtain ⟨x, ti, hx, hti⟩ := hwf v hv
    refine ⟨x, ti, hx, hti, ?_⟩
    rw [hsf]
    exact hall v hv x hx

/-- Witness for C9: a pre-populated one-file filesystem is only skipped:
the file is untouched, the video is reported as skip counted as success,
and the rerun performs zero listing or fetch calls. -/
theorem claim_C9_witness :
    processOne (Env.mk (fun _ => PyResult.ok []) (fun _ => none))
        ⟨some ("v1"), some ("T"), some ("u")⟩
        (startState [(outputPath ("v1"), FileContent.raw ("x"))]) =
      PyResult.ok (RunState.mk [(outputPath ("v1"), FileContent.raw ("x"))]
        1 0 [] [Outcome.skip] [] [] 0 []) ∧
    fsLookup (RunState.mk [(outputPath ("v1"), FileContent.raw ("x"))]
        1 0 [] [Outcome.skip] [] [] 0 []).fs (outputPath ("v1")) =
      some (FileContent.raw ("x")) ∧
    run (Env.mk (fun _ => PyResult.ok []) (fun _ => none))
        [⟨some ("v1"), some ("T"), some ("u")⟩]
        (RunState.mk [(outputPath ("v1"), FileContent.raw ("x"))]
          1 0 [] [Outcome.skip] [] [] 0 []).fs =
      PyResult.ok (RunState.mk [(outputPath ("v1"), FileContent.raw ("x"))]
        1 0 [] [Outcome.skip] [] [] 0 []) :=
  ⟨claim_C9_idempotent_rerun.1 (Env.mk (fun _ => PyResult.ok []) (fun _ => none))
      ⟨some ("v1"), some ("T"), some ("u")⟩
      (startState [(outputPath ("v1"), FileContent.raw ("x"))])
      ("v1") ("T") rfl rfl rfl,
   claim_C9_idempotent_rerun.2.1 (Env.mk (fun _ => PyResult.ok []) (fun _ => none))
      [⟨some ("v1"), some ("T"), some ("u")⟩]
      [(outputPath ("v1"), FileContent.raw ("x"))]
      (RunState.mk [(outputPath ("v1"), FileContent.raw ("x"))]
        1 0 [] [Outcome.skip] [] [] 0 [])
      (outputPath ("v1")) (FileContent.raw ("x"))
      rfl (outputPath_ne_failed ("v1")) rfl,
   claim_C9_idempotent_rerun.2.2 (Env.mk (fun _ => PyResult.ok []) (fun _ => none))
      [⟨some ("v1"), some ("T"), some ("u")⟩]
      [(outputPath ("v1"), FileContent.raw ("x"))]
      (RunState.mk [(outputPath ("v1"), FileContent.raw ("x"))]
        1 0 [] [Outcome.skip] [] [] 0 [])
      (by
        intro w hw
        simp at hw
        subst hw
        exact ⟨("v1"), ("T"), rfl, rfl⟩)
      rfl rfl⟩

/-- C10: the per-video error isolation does not cover malformed
descriptors: a missing id or title key is read outside the per-video try
scope and aborts the whole run, while a descriptor missing only the url
key yields a per-video FailureRecord (error "KeyError: url") and the
batch goes on. -/
theorem claim_C10_malformed_descriptors :
    (∀ (env : Env) (v : VideoDescriptor) (s : RunState),
        v.id? = none → processOne env v s = PyResult.exn ("KeyError: id")) ∧
    (∀ (env : Env) (v : VideoDescriptor) (s : RunState) (x : String),
        v.id? = some x → v.title? = none →
        processOne env v s = PyResult.exn ("KeyError: title")) ∧
    (∀ (env : Env) (vs : List VideoDescriptor) (fs0 : List (String × FileContent)),
        (∃ v ∈ vs, v.id? = none ∨ v.title? = none) →
        ∃ e, run env vs fs0 = PyResult.exn e) ∧
    (∀ (env : Env) (v : VideoDescriptor) (s : RunState) (x ti : String)
        (ts : List Transcript) (t : Transcript) (segs : List Segment),
        v.id? = some x → v.title? = some ti → v.url? = none →
        fsLookup s.fs (outputPath x) = none → env.list x = PyResult.ok ts →
        select_transcript ts = some t → t.fetched = PyResult.ok segs →
        processOne env v s = PyResult.ok
          { s with failed_videos := s.failed_videos ++ [⟨x, ti, ("KeyError: url")⟩],
                   fail_count := s.fail_count + 1,
                   outcomes := s.outcomes ++ [Outcome.error],
                   sleeps := s.sleeps ++ [(1 : Rat)],
                   listCalls := s.listCalls ++ [x],
                   fetchCount := s.fetchCount + 1 }) := by
  refine ⟨?_, ?_, ?_, ?_⟩
  · intro env v s h
    exact processOne_missing_id env v s h
  · intro env v s x hx h
    exact processOne_missing_title env v s x hx h
  · intro env vs fs0 hbad
    obtain ⟨e, he⟩ := runLoop_abort env vs (startState fs0) hbad
    refine ⟨e, ?_⟩
    unfold run
    rw [he]
  · intro env v s x ti ts t segs hid hti hu hn hl hsel hf
    have hc : (fsLookup s.fs (outputPath x)).isSome = false := by rw [hn]; rfl
    unfold processOne
    rw [hid, hti]
    simp [hc, tryBlock, hl, hsel, hf, hu, recordException]

/-- Witness for C10: a descriptor without id (and one without title)
aborts, a batch containing one aborts, and a descriptor missing only the
url fails per-video with "KeyError: url" while staying in the loop. -/
theorem claim_C10_witness :
    processOne (Env.mk (fun _ => PyResult.ok []) (fun _ => none))
        ⟨none, some ("T"), some ("u")⟩ (startState []) =
      PyResult.exn ("KeyError: id") ∧
    processOne (Env.mk (fun _ => PyResult.ok []) (fun _ => none))
        ⟨some ("v1"), none, some ("u")⟩ (startState []) =
      PyResult.exn ("KeyError: title") ∧
    (∃ e, run (Env.mk (fun _ => PyResult.ok []) (fun _ => none))
        [⟨none, none, none⟩] [] = PyResult.exn e) ∧
    processOne (Env.mk (fun _ => PyResult.ok [⟨("ko"), true, PyResult.ok []⟩])
        (fun _ => none))
        ⟨some ("v1"), some ("T"), none⟩ (startState []) =
      PyResult.ok (RunState.mk [] 0 1 [⟨("v1"), ("T"), ("KeyError: url")⟩]
        [Outcome.error] [(1 : Rat)] [("v1")] 1 []) :=
  ⟨claim_C10_malformed_descriptors.1 (Env.mk (fun _ => PyResult.ok []) (fun _ => none))
      ⟨none, some ("T"), some ("u")⟩ (startState []) rfl,
   claim_C10_malformed_descriptors.2.1
      (Env.mk (fun _ => PyResult.ok []) (fun _ => none))
      ⟨some ("v1"), none, some ("u")⟩ (startState []) ("v1") rfl rfl,
   claim_C10_malformed_descriptors.2.2.1
      (Env.mk (fun _ => PyResult.ok []) (fun _ => none))
      [⟨none, none, none⟩] [] ⟨⟨none, none, none⟩, by simp, Or.inl rfl⟩,
   claim_C10_malformed_descriptors.2.2.2
      (Env.mk (fun _ => PyResult.ok [⟨("ko"), true, PyResult.ok []⟩]) (fun _ => none))
      ⟨some ("v1"), some ("T"), none⟩ (startState []) ("v1") ("T")
      [⟨("ko"), true, PyResult.ok []⟩] ⟨("ko"), true, PyResult.ok []⟩ []
      rfl rfl rfl rfl rfl rfl rfl⟩
